import Mathlib

/-!
Shallow embedding of `src/bin/demo.py` (systemd cgroup delegation demo).

The embedding covers:

* `CgMode.__init__` — classification of the mount table into the legacy,
  hybrid or unified cgroup hierarchy mode (`detectCgMode` below);
* `DelegatedScope.__init__` — name validation, mode detection, rejection of
  hybrid mode, computation of the scope's cgroup path, and the
  `StartTransientUnit` D-Bus call (`mkDelegatedScope`);
* `DelegatedScope.create_subcgroup`, `migrate_pid`,
  `delegate_resource_control`, `__str__` and `_stop_unit`.

Side effects (directory removal/creation, control-file writes, D-Bus calls)
are modelled as explicit traces of operations; the cgroup filesystem is a
set of directories plus a file store, and `applyOps` gives the effect of a
trace on it.  The D-Bus transport and the kernel are external collaborators:
the embedding models the data each call carries, not its remote outcome.
-/

namespace DelegationDemo

/-- Mode constants of the `CgMode` class (`LEGACY = 1`, `HYBRID = 2`,
`UNIFIED = 3` in the source; identity of the values, not their numerals,
matters to the logic). -/
inductive CgMode where
  | LEGACY
  | HYBRID
  | UNIFIED
deriving DecidableEq, Repr

/-- One entry of the mount table as returned by `psutil.disk_partitions`:
the fields of a partition that `CgMode.__init__` reads. -/
structure Partition where
  mountpoint : String
  fstype : String
  opts : String
deriving DecidableEq, Repr

/-- Boolean test that `pat` occurs as a contiguous sublist of `l`; models
Python's `s.find(pat) != -1`. -/
def listHasSub (pat : List Char) : List Char → Bool
  | [] => pat.isEmpty
  | c :: t => List.isPrefixOf pat (c :: t) || listHasSub pat t

/-- Models Python `s.find(pat) != -1` (substring occurrence test). -/
def strFind (s pat : String) : Bool :=
  listHasSub pat.toList s.toList

/-- Models Python `s.startswith(pre)`. -/
def strStartsWith (s pre : String) : Bool :=
  List.isPrefixOf pre.toList s.toList

/-- Models Python `s.endswith(suf)`. -/
def strEndsWith (s suf : String) : Bool :=
  List.isSuffixOf suf.toList s.toList

/-- The dict comprehension in `CgMode.__init__`: partitions whose mountpoint
starts with `/sys/fs/cgroup`, keyed by mountpoint.  A Python dict keeps the
last value written for a key, so a lookup is modelled by taking the last
matching entry of the filtered list (`mountFor`). -/
def cgroupMounts (parts : List Partition) : List Partition :=
  parts.filter (fun p => strStartsWith p.mountpoint "/sys/fs/cgroup")

/-- Models `cgroup_mounts.get(mp)` on the dict built in `CgMode.__init__`. -/
def mountFor (parts : List Partition) (mp : String) : Option Partition :=
  ((cgroupMounts parts).filter (fun p => p.mountpoint == mp)).getLast?

/-- The `named_hierarchy_is` lambda of `CgMode.__init__`: the mount exists
(is not `None`), has the given filesystem type, and its options contain the
substring `name=systemd`. -/
def named_hierarchy_is (mount : Option Partition) (fstype : String) : Bool :=
  match mount with
  | none => false
  | some m => m.fstype == fstype && strFind m.opts "name=systemd"

/-- Outcome of `CgMode.__init__`.  `ok m` — `self._mode` is set to `m` and
the constructor returns; `noRootReturn` — the early `return` taken when the
mount table has no `/sys/fs/cgroup` entry, which leaves the `_mode`
attribute unassigned (any later `==` comparison on such an object raises
`AttributeError`); `detectionError` — the `ValueError('Failed to detect
cgroup mode.')` raised when no pattern matches. -/
inductive DetectResult where
  | ok (m : CgMode)
  | noRootReturn
  | detectionError
deriving DecidableEq, Repr

/-- Embedding of `CgMode.__init__` (src/bin/demo.py lines 22–43).  The
`mnt_unified` lookup at `/sys/fs/cgroup/unified` is performed by the source
but never read, so it is omitted here. -/
def detectCgMode (parts : List Partition) : DetectResult :=
  let mnt_root := mountFor parts "/sys/fs/cgroup"
  let mnt_systemd := mountFor parts "/sys/fs/cgroup/systemd"
  match mnt_root with
  | none => .noRootReturn
  | some root =>
    if root.fstype == "cgroup2" then
      .ok .UNIFIED
    else if root.fstype == "tmpfs" && named_hierarchy_is mnt_systemd "cgroup" then
      .ok .LEGACY
    else if root.fstype == "tmpfs" && named_hierarchy_is mnt_systemd "cgroup2" then
      .ok .HYBRID
    else
      .detectionError

/-- A filesystem operation issued by `DelegatedScope` methods.
`rmdirTolerant p` is the `os.rmdir(p)` wrapped in
`try: ... except FileNotFoundError: pass`; `mkdir p` is `os.mkdir(p)`;
`writeFile p c` is `open(p, 'w')` followed by a single `write(c)`
(truncate-and-write). -/
inductive FsOp where
  | rmdirTolerant (path : String)
  | mkdir (path : String)
  | writeFile (path : String) (content : String)
deriving DecidableEq, Repr

/-- True exactly on control-file writes (`writeFile`). -/
def FsOp.isWrite : FsOp → Bool
  | .writeFile _ _ => true
  | _ => false

/-- The cgroup filesystem as the operations see it: the set of existing
directories and the contents of control files (last write wins, newest
entry first). -/
structure FS where
  dirs : Finset String
  files : List (String × String)
deriving DecidableEq

/-- Effect of one filesystem operation (success path: `rmdir` of a missing
directory is tolerated as a no-op by the source's `except FileNotFoundError`;
errors such as `rmdir` of a non-empty directory are external failures
propagated to the caller and not modelled). -/
def applyOp (fs : FS) : FsOp → FS
  | .rmdirTolerant p => { fs with dirs := fs.dirs.erase p }
  | .mkdir p => { fs with dirs := insert p fs.dirs }
  | .writeFile p c => { fs with files := (p, c) :: fs.files }

/-- Effect of a trace of filesystem operations, applied left to right. -/
def applyOps (fs : FS) (ops : List FsOp) : FS :=
  ops.foldl applyOp fs

/-- A D-Bus call to the systemd manager, as issued by `_start_unit` /
`_stop_unit`.  `startTransientUnit scope slice` carries the transient scope
name and its parent slice (the remaining properties — attached PIDs,
`Delegate`, the four accounting flags — are fixed by the source). -/
inductive Event where
  | startTransientUnit (scope slice : String)
  | stopUnit (scope : String)
deriving DecidableEq, Repr

/-- In-memory state of an `Active` `DelegatedScope`: the attributes
`_cgmode`, `_slice`, `_scope`, `_cgpath` and `_subcgroups` set by
`DelegatedScope.__init__`. -/
structure ScopeState where
  cgmode : CgMode
  slice : String
  scope : String
  cgpath : String
  subcgroups : Finset String
deriving DecidableEq

/-- Errors aborting `DelegatedScope.__init__`.  `invalidSliceName` and
`invalidScopeName` are the two `ValueError`s of the name checks (the spec's
`NameError`); `hybridUnsupported` the `ValueError` rejecting hybrid mode
(the spec's `UnsupportedModeError`); `detectFailed` the propagated
`ValueError` of `CgMode.__init__` (the spec's `DetectionError`);
`modeAttrMissing` the `AttributeError` raised by `self._cgmode ==
CgMode.HYBRID` when `CgMode.__init__` took its early no-root `return` and
never assigned `_mode`. -/
inductive InitError where
  | invalidSliceName
  | invalidScopeName
  | hybridUnsupported
  | detectFailed
  | modeAttrMissing
deriving DecidableEq, Repr

/-- Embedding of `DelegatedScope.__init__` (src/bin/demo.py lines 66–82 and
`_start_unit`).  Returns the constructed state or the aborting error,
together with the trace of D-Bus calls made before returning/raising (the
transport and the remote outcome of `StartTransientUnit` are external; the
claims settled against this definition concern failures raised before the
call or the state after a successful construction). -/
def mkDelegatedScope (name slice : String) (parts : List Partition) :
    Except InitError ScopeState × List Event :=
  if !strEndsWith slice ".slice" then
    (.error .invalidSliceName, [])
  else if !strEndsWith name ".scope" then
    (.error .invalidScopeName, [])
  else
    match detectCgMode parts with
    | .detectionError => (.error .detectFailed, [])
    | .noRootReturn => (.error .modeAttrMissing, [])
    | .ok m =>
      if m = CgMode.HYBRID then
        (.error .hybridUnsupported, [])
      else
        (.ok { cgmode := m
               slice := slice
               scope := name
               cgpath := "/sys/fs/cgroup/"
                 ++ (if m = CgMode.LEGACY then "systemd/" else "")
                 ++ slice ++ "/" ++ name
               subcgroups := ∅ },
         [Event.startTransientUnit name slice])

/-- The fixed controller list of the legacy-mode loops,
`("cpu", "memory", "blkio", "pids")`. -/
def controllers : List String := ["cpu", "memory", "blkio", "pids"]

/-- Per-controller path `/sys/fs/cgroup/<c>/<slice>/<scope>/<name>` used in
the legacy-mode branches of `create_subcgroup` and `migrate_pid`. -/
def controllerPath (s : ScopeState) (c name : String) : String :=
  "/sys/fs/cgroup/" ++ c ++ "/" ++ s.slice ++ "/" ++ s.scope ++ "/" ++ name

/-- Idempotent directory creation as the source performs it: remove a stale
directory of the same name (tolerating not-found), then create fresh. -/
def idempotentMkdir (p : String) : List FsOp :=
  [.rmdirTolerant p, .mkdir p]

/-- Truthiness of the expression tested by the guard `if not str:` in
`create_subcgroup` (line 127).  The source tests the *builtin type* `str`,
not the `name` parameter; a Python class object is always truthy, so the
guard can never fire. -/
def pyBuiltinStrTruthy : Bool := true

/-- Embedding of `DelegatedScope.create_subcgroup` (lines 125–156).
Returns the `Optional[List[str]]` result, the updated state, and the trace
of filesystem operations, in program order: primary directory first, then —
in legacy mode — one directory per controller in the fixed order of
`controllers`. -/
def create_subcgroup (s : ScopeState) (name : String) :
    Option (List String) × ScopeState × List FsOp :=
  if !pyBuiltinStrTruthy then
    (none, s, [])
  else
    let primary := s.cgpath ++ "/" ++ name
    let ctrlPaths :=
      if s.cgmode = CgMode.LEGACY then
        controllers.map (fun c => controllerPath s c name)
      else
        []
    let paths := primary :: ctrlPaths
    (some paths,
     { s with subcgroups := insert name s.subcgroups },
     paths.flatMap idempotentMkdir)

/-- The control-file writes of `migrate_pid` (lines 162–170): the primary
`cgroup.procs` write, then — in legacy mode — one per-controller
`cgroup.procs` write in the fixed order of `controllers`; each writes the
decimal rendering of `pid`. -/
def migrateWrites (s : ScopeState) (subcgroup : String) (pid : Int) : List FsOp :=
  FsOp.writeFile (s.cgpath ++ "/" ++ subcgroup ++ "/cgroup.procs") (toString pid) ::
    (if s.cgmode = CgMode.LEGACY then
      controllers.map (fun c =>
        FsOp.writeFile (controllerPath s c subcgroup ++ "/cgroup.procs") (toString pid))
    else
      [])

/-- Embedding of `DelegatedScope.migrate_pid` (lines 158–170): if the
sub-cgroup is not yet known, `create_subcgroup` runs first (its return value
is discarded); then the `cgroup.procs` writes are issued. -/
def migrate_pid (s : ScopeState) (subcgroup : String) (pid : Int) :
    ScopeState × List FsOp :=
  if subcgroup ∈ s.subcgroups then
    (s, migrateWrites s subcgroup pid)
  else
    let r := create_subcgroup s subcgroup
    (r.2.1, r.2.2 ++ migrateWrites r.2.1 subcgroup pid)

/-- Embedding of `DelegatedScope.delegate_resource_control` (lines 182–187):
no attribute is mutated; outside unified mode the method returns at once
with no write, in unified mode it writes the fixed token string to the
scope's `cgroup.subtree_control`. -/
def delegate_resource_control (s : ScopeState) : ScopeState × List FsOp :=
  if s.cgmode ≠ CgMode.UNIFIED then
    (s, [])
  else
    (s, [FsOp.writeFile (s.cgpath ++ "/cgroup.subtree_control")
          "+cpu +memory +pids +io"])

/-- Embedding of `DelegatedScope.__str__` (lines 172–180): runs the external
`systemd-cgls` tool over the scope's primary path; mutates no attribute.
The returned list is the argument vector of the spawned process. -/
def describeScope (s : ScopeState) : ScopeState × List String :=
  (s, ["systemd-cgls", "--no-pager", s.cgpath])

/-- Embedding of `DelegatedScope._stop_unit` (lines 118–123), the teardown
invoked from `__del__`: a best-effort `StopUnit` D-Bus call; mutates no
attribute, and any failure is logged, never raised. -/
def stop_unit (s : ScopeState) : ScopeState × List Event :=
  (s, [Event.stopUnit s.scope])

/-! Concrete sample inputs used to exercise the definitions. -/

/-- A unified-layout mount table: the root cgroup mount has type `cgroup2`. -/
def unifiedParts : List Partition :=
  [⟨"/sys/fs/cgroup", "cgroup2", "rw,nosuid,nodev,noexec,relatime,nsdelegate"⟩]

/-- A legacy-layout mount table: `tmpfs` root plus the named systemd
hierarchy of type `cgroup` with the `name=systemd` option. -/
def legacyParts : List Partition :=
  [⟨"/sys/fs/cgroup", "tmpfs", "ro,nosuid,nodev,noexec,mode=755"⟩,
   ⟨"/sys/fs/cgroup/systemd", "cgroup", "rw,nosuid,nodev,noexec,relatime,xattr,name=systemd"⟩]

/-- A mount table matching the source's hybrid pattern: `tmpfs` root plus a
named systemd mount of type `cgroup2` carrying the `name=systemd` option. -/
def hybridParts : List Partition :=
  [⟨"/sys/fs/cgroup", "tmpfs", "ro,nosuid,nodev,noexec,mode=755"⟩,
   ⟨"/sys/fs/cgroup/systemd", "cgroup2", "rw,nosuid,nodev,noexec,relatime,name=systemd"⟩]

/-- The state `DelegatedScope("workload.scope", "workload.slice")` reaches
on a unified host (the demo's own names from `main`). -/
def unifiedScope : ScopeState :=
  { cgmode := .UNIFIED
    slice := "workload.slice"
    scope := "workload.scope"
    cgpath := "/sys/fs/cgroup/workload.slice/workload.scope"
    subcgroups := ∅ }

/-- The state `DelegatedScope("workload.scope", "workload.slice")` reaches
on a legacy host. -/
def legacyScope : ScopeState :=
  { cgmode := .LEGACY
    slice := "workload.slice"
    scope := "workload.scope"
    cgpath := "/sys/fs/cgroup/systemd/workload.slice/workload.scope"
    subcgroups := ∅ }

/-- A legacy scope on which `create_subcgroup "manager"` has already run. -/
def legacyScopeM : ScopeState :=
  { legacyScope with subcgroups := {"manager"} }

/-! Helper lemmas about traces and the filesystem model. -/

lemma applyOps_append (fs : FS) (t₁ t₂ : List FsOp) :
    applyOps fs (t₁ ++ t₂) = applyOps (applyOps fs t₁) t₂ := by
  simp [applyOps, List.foldl_append]

lemma insert_erase_self (p : String) (d : Finset String) :
    insert p (d.erase p) = insert p d := by
  ext x
  by_cases h : x = p <;> simp [h]

/-- Applying the rmdir-then-mkdir pairs for a list of paths adds exactly
those paths to the directory set. -/
lemma dirs_applyOps_mkdirs (ps : List String) :
    ∀ fs : FS, (applyOps fs (ps.flatMap idempotentMkdir)).dirs = fs.dirs ∪ ps.toFinset := by
  induction ps with
  | nil => intro fs; simp [applyOps]
  | cons p t ih =>
    intro fs
    have hstep : applyOps fs ((p :: t).flatMap idempotentMkdir)
        = applyOps { fs with dirs := insert p (fs.dirs.erase p) } (t.flatMap idempotentMkdir) := by
      simp [idempotentMkdir, applyOps, applyOp]
    rw [hstep, ih, insert_erase_self]
    ext x
    simp [Finset.mem_union, Finset.mem_insert]

/-- A trace of pure control-file writes leaves the directory set unchanged. -/
lemma dirs_applyOps_of_writes (t : List FsOp) :
    ∀ fs : FS, (∀ op ∈ t, op.isWrite = true) → (applyOps fs t).dirs = fs.dirs := by
  induction t with
  | nil => intro fs _; rfl
  | cons op rest ih =>
    intro fs h
    have hop : op.isWrite = true := h op (by simp)
    cases op with
    | rmdirTolerant p => simp [FsOp.isWrite] at hop
    | mkdir p => simp [FsOp.isWrite] at hop
    | writeFile p c =>
      have : applyOps fs (FsOp.writeFile p c :: rest)
          = applyOps { fs with files := (p, c) :: fs.files } rest := rfl
      rw [this, ih]
      intro o ho
      exact h o (List.mem_cons_of_mem _ ho)

/-- No operation of an idempotent-mkdir trace is a control-file write. -/
lemma mkdirs_not_write (ps : List String) :
    ∀ op ∈ ps.flatMap idempotentMkdir, op.isWrite = false := by
  intro op hop
  rw [List.mem_flatMap] at hop
  obtain ⟨p, _, hmem⟩ := hop
  simp [idempotentMkdir] at hmem
  rcases hmem with h | h <;> simp [h, FsOp.isWrite]

/-- Every operation `migrate_pid` issues after provisioning is a
control-file write. -/
lemma migrateWrites_all_writes (s : ScopeState) (subcgroup : String) (pid : Int) :
    ∀ op ∈ migrateWrites s subcgroup pid, op.isWrite = true := by
  intro op hop
  simp [migrateWrites] at hop
  rcases hop with h | h
  · simp [h, FsOp.isWrite]
  · obtain ⟨-, c, -, hc⟩ := h
    simp [← hc, FsOp.isWrite]

/-! Claim theorems. -/

/-- C1: for every scope in legacy mode, `create_subcgroup name` returns
exactly the 5 paths — primary `<base>/<name>` first, then the controller
paths `/sys/fs/cgroup/<c>/<slice>/<scope>/<name>` in the fixed order cpu,
memory, blkio, pids — and for every scope in unified mode it returns
exactly the single primary path. -/
theorem C1_create_subcgroup_paths (s : ScopeState) (name : String) :
    (s.cgmode = CgMode.LEGACY →
      (create_subcgroup s name).1 =
        some [s.cgpath ++ "/" ++ name,
          controllerPath s "cpu" name, controllerPath s "memory" name,
          controllerPath s "blkio" name, controllerPath s "pids" name]) ∧
    (s.cgmode = CgMode.UNIFIED →
      (create_subcgroup s name).1 = some [s.cgpath ++ "/" ++ name]) := by
  constructor <;> intro h <;>
    simp [create_subcgroup, pyBuiltinStrTruthy, h, controllers]

/-- Witness for C1 at the demo's own scope states and name `x`. -/
theorem C1_create_subcgroup_paths_witness :
    (create_subcgroup legacyScope "x").1 =
      some [legacyScope.cgpath ++ "/" ++ "x",
        controllerPath legacyScope "cpu" "x", controllerPath legacyScope "memory" "x",
        controllerPath legacyScope "blkio" "x", controllerPath legacyScope "pids" "x"] ∧
    (create_subcgroup unifiedScope "x").1 = some [unifiedScope.cgpath ++ "/" ++ "x"] :=
  ⟨(C1_create_subcgroup_paths legacyScope "x").1 rfl,
   (C1_create_subcgroup_paths unifiedScope "x").2 rfl⟩

/-- C2 (code evaluation): the three mount-table patterns are classified as
unified, legacy and hybrid respectively, but the empty mount table — which
matches none of the three patterns — makes `CgMode.__init__` take its early
no-root `return` instead of raising the detection `ValueError`: the
constructor finishes with the `_mode` attribute never assigned. -/
theorem C2_detection_outcomes_eval :
    detectCgMode unifiedParts = DetectResult.ok CgMode.UNIFIED ∧
    detectCgMode legacyParts = DetectResult.ok CgMode.LEGACY ∧
    detectCgMode hybridParts = DetectResult.ok CgMode.HYBRID ∧
    detectCgMode [] = DetectResult.noRootReturn ∧
    DetectResult.noRootReturn ≠ DetectResult.detectionError := by
  refine ⟨by decide, by decide, by decide, by decide, by decide⟩

/-- C3 (counterexample): with the hybrid mount table detected as hybrid,
constructing `DelegatedScope("x", "y")` — an invalid slice name — fails
with the slice-name `ValueError`, not with the hybrid-mode rejection: the
name checks run before mode detection. -/
theorem C3_counterexample :
    detectCgMode hybridParts = DetectResult.ok CgMode.HYBRID ∧
    (mkDelegatedScope "x" "y" hybridParts).1 = Except.error InitError.invalidSliceName ∧
    InitError.invalidSliceName ≠ InitError.hybridUnsupported :=
  ⟨by decide, rfl, by decide⟩

/-- C3 (amended): for every *valid* slice and scope name, constructing a
`DelegatedScope` while the detected hierarchy mode is hybrid fails with the
unsupported-mode error, before any D-Bus call. -/
theorem C3_hybrid_rejected (name slice : String) (parts : List Partition)
    (hs : strEndsWith slice ".slice" = true)
    (hn : strEndsWith name ".scope" = true)
    (hd : detectCgMode parts = DetectResult.ok CgMode.HYBRID) :
    mkDelegatedScope name slice parts = (.error .hybridUnsupported, []) := by
  simp [mkDelegatedScope, hs, hn, hd]

/-- Witness for the amended C3 at the demo's names over the hybrid table. -/
theorem C3_hybrid_rejected_witness :
    mkDelegatedScope "workload.scope" "workload.slice" hybridParts =
      (.error .hybridUnsupported, []) :=
  C3_hybrid_rejected "workload.scope" "workload.slice" hybridParts
    (by decide) (by decide) (by decide)

/-- C5: `delegate_resource_control` mutates no state; in legacy mode it
performs no filesystem write, and in unified mode its only effect is
writing the token string `+cpu +memory +pids +io` to the scope's
`cgroup.subtree_control` file. -/
theorem C5_delegate_resource_control (s : ScopeState) :
    (s.cgmode = CgMode.LEGACY → delegate_resource_control s = (s, [])) ∧
    (s.cgmode = CgMode.UNIFIED →
      delegate_resource_control s =
        (s, [FsOp.writeFile (s.cgpath ++ "/cgroup.subtree_control")
              "+cpu +memory +pids +io"])) := by
  constructor <;> intro h <;> simp [delegate_resource_control, h]

/-- Witness for C5 at the demo's legacy and unified scope states. -/
theorem C5_delegate_resource_control_witness :
    delegate_resource_control legacyScope = (legacyScope, []) ∧
    delegate_resource_control unifiedScope =
      (unifiedScope, [FsOp.writeFile (unifiedScope.cgpath ++ "/cgroup.subtree_control")
        "+cpu +memory +pids +io"]) :=
  ⟨(C5_delegate_resource_control legacyScope).1 rfl,
   (C5_delegate_resource_control unifiedScope).2 rfl⟩

/-- C7 (code evaluation): the emptiness guard of `create_subcgroup` tests
the builtin type `str`, which is always truthy, so the empty name is *not*
rejected: the call returns the primary path `<base>/`, issues the
directory operations for it, and registers `""` in the known-sub-group
set, instead of failing with no directory created and nothing registered. -/
theorem C7_empty_name_accepted_eval :
    pyBuiltinStrTruthy = true ∧
    (create_subcgroup unifiedScope "").1 =
      some ["/sys/fs/cgroup/workload.slice/workload.scope/"] ∧
    (create_subcgroup unifiedScope "").2.2 =
      [FsOp.rmdirTolerant "/sys/fs/cgroup/workload.slice/workload.scope/",
       FsOp.mkdir "/sys/fs/cgroup/workload.slice/workload.scope/"] ∧
    "" ∈ (create_subcgroup unifiedScope "").2.1.subcgroups := by
  refine ⟨rfl, by decide, by decide, by decide⟩

/-- C8: an invalid slice or scope name makes `DelegatedScope` construction
fail with the corresponding name `ValueError` while the event trace is
empty: the failure happens before any D-Bus call or filesystem
operation. -/
theorem C8_invalid_names_fail_first (name slice : String) (parts : List Partition)
    (h : strEndsWith slice ".slice" = false ∨ strEndsWith name ".scope" = false) :
    ((mkDelegatedScope name slice parts).1 = Except.error InitError.invalidSliceName ∨
     (mkDelegatedScope name slice parts).1 = Except.error InitError.invalidScopeName) ∧
    (mkDelegatedScope name slice parts).2 = [] := by
  rcases h with h | h
  · simp [mkDelegatedScope, h]
  · by_cases hs : strEndsWith slice ".slice" <;> simp [mkDelegatedScope, hs, h]

/-- Witness for C8: a bad slice name over the unified mount table. -/
theorem C8_invalid_names_fail_first_witness :
    ((mkDelegatedScope "workload.scope" "bad" unifiedParts).1 =
        Except.error InitError.invalidSliceName ∨
     (mkDelegatedScope "workload.scope" "bad" unifiedParts).1 =
        Except.error InitError.invalidScopeName) ∧
    (mkDelegatedScope "workload.scope" "bad" unifiedParts).2 = [] :=
  C8_invalid_names_fail_first "workload.scope" "bad" unifiedParts (Or.inl (by decide))

/-- Closed form of `create_subcgroup`: since the dead emptiness guard never
fires, every call returns the primary-then-controllers path list, registers
the name, and issues the rmdir-then-mkdir pair for each path in order. -/
lemma create_subcgroup_eq (s : ScopeState) (name : String) :
    create_subcgroup s name =
      (some ((s.cgpath ++ "/" ++ name) ::
          (if s.cgmode = CgMode.LEGACY then
            controllers.map (fun c => controllerPath s c name) else [])),
       { s with subcgroups := insert name s.subcgroups },
       (((s.cgpath ++ "/" ++ name) ::
          (if s.cgmode = CgMode.LEGACY then
            controllers.map (fun c => controllerPath s c name) else []))).flatMap
         idempotentMkdir) :=
  rfl

/-- C4: on a sub-group name not yet known, `migrate_pid` runs the full
`create_subcgroup` provisioning first — its trace precedes the writes, it
consists only of directory operations, the name gets registered, and after
the provisioning prefix every returned path is present in the directory
set — and only then issues the `cgroup.procs` writes. -/
theorem C4_migrate_pid_creates_first (s : ScopeState) (sub : String) (pid : Int)
    (h : sub ∉ s.subcgroups) :
    migrate_pid s sub pid =
      ((create_subcgroup s sub).2.1,
        (create_subcgroup s sub).2.2 ++
          migrateWrites (create_subcgroup s sub).2.1 sub pid) ∧
    (∀ op ∈ (create_subcgroup s sub).2.2, op.isWrite = false) ∧
    (∀ op ∈ migrateWrites (create_subcgroup s sub).2.1 sub pid, op.isWrite = true) ∧
    sub ∈ (create_subcgroup s sub).2.1.subcgroups ∧
    ∃ paths, (create_subcgroup s sub).1 = some paths ∧
      ∀ fs : FS, ∀ p ∈ paths, p ∈ (applyOps fs (create_subcgroup s sub).2.2).dirs := by
  refine ⟨?_, ?_, migrateWrites_all_writes _ _ _, ?_, ?_⟩
  · simp [migrate_pid, h]
  · simp only [create_subcgroup_eq]
    exact mkdirs_not_write _
  · simp only [create_subcgroup_eq]
    exact Finset.mem_insert_self _ _
  · refine ⟨(s.cgpath ++ "/" ++ sub) ::
      (if s.cgmode = CgMode.LEGACY then
        controllers.map (fun c => controllerPath s c sub) else []), ?_, ?_⟩
    · simp only [create_subcgroup_eq]
    · intro fs p hp
      simp only [create_subcgroup_eq]
      rw [dirs_applyOps_mkdirs]
      exact Finset.mem_union_right _ (List.mem_toFinset.mpr hp)

/-- Witness for C4: migrating PID 4242 into the not-yet-known sub-group
`manager` of the unified demo scope first runs the provisioning. -/
theorem C4_migrate_pid_creates_first_witness :
    migrate_pid unifiedScope "manager" 4242 =
      ((create_subcgroup unifiedScope "manager").2.1,
        (create_subcgroup unifiedScope "manager").2.2 ++
          migrateWrites (create_subcgroup unifiedScope "manager").2.1 "manager" 4242) :=
  (C4_migrate_pid_creates_first unifiedScope "manager" 4242 (by decide)).1

/-- C6: `create_subcgroup` is idempotent — a second call with the same name
returns the same path list, leaves the directory set exactly as the first
call left it (for any starting filesystem), leaves the known-sub-group set
unchanged, and the name is registered exactly once after either call. -/
theorem C6_create_subcgroup_idempotent (s : ScopeState) (name : String) :
    (create_subcgroup (create_subcgroup s name).2.1 name).1 =
      (create_subcgroup s name).1 ∧
    (∀ fs : FS,
      (applyOps (applyOps fs (create_subcgroup s name).2.2)
          (create_subcgroup (create_subcgroup s name).2.1 name).2.2).dirs =
        (applyOps fs (create_subcgroup s name).2.2).dirs) ∧
    (create_subcgroup (create_subcgroup s name).2.1 name).2.1.subcgroups =
      (create_subcgroup s name).2.1.subcgroups ∧
    name ∈ (create_subcgroup s name).2.1.subcgroups ∧
    Multiset.count name (create_subcgroup s name).2.1.subcgroups.val = 1 ∧
    Multiset.count name
      (create_subcgroup (create_subcgroup s name).2.1 name).2.1.subcgroups.val = 1 := by
  have hmem : name ∈ (create_subcgroup s name).2.1.subcgroups := by
    simp only [create_subcgroup_eq]
    exact Finset.mem_insert_self _ _
  have hsub : (create_subcgroup (create_subcgroup s name).2.1 name).2.1.subcgroups =
      (create_subcgroup s name).2.1.subcgroups := by
    simp only [create_subcgroup_eq]
    exact Finset.insert_idem _ _
  refine ⟨rfl, ?_, hsub, hmem, ?_, ?_⟩
  · intro fs
    simp only [create_subcgroup_eq]
    rw [dirs_applyOps_mkdirs, dirs_applyOps_mkdirs]
    simp [controllerPath, Finset.union_assoc, Finset.union_self]
  · exact Multiset.count_eq_one_of_mem ((create_subcgroup s name).2.1.subcgroups).nodup hmem
  · rw [hsub]
    exact Multiset.count_eq_one_of_mem ((create_subcgroup s name).2.1.subcgroups).nodup hmem

/-- C9: the known-sub-group set starts empty on successful construction and
only ever grows — `create_subcgroup` and `migrate_pid` extend it and leave
the requested name a member, while `delegate_resource_control`, the
describe operation and teardown do not touch the state at all. -/
theorem C9_subcgroups_monotone :
    (∀ (name slice : String) (parts : List Partition) (st : ScopeState) (ev : List Event),
      mkDelegatedScope name slice parts = (Except.ok st, ev) → st.subcgroups = ∅) ∧
    (∀ (s : ScopeState) (n : String),
      s.subcgroups ⊆ (create_subcgroup s n).2.1.subcgroups ∧
      n ∈ (create_subcgroup s n).2.1.subcgroups) ∧
    (∀ (s : ScopeState) (n : String) (pid : Int),
      s.subcgroups ⊆ (migrate_pid s n pid).1.subcgroups ∧
      n ∈ (migrate_pid s n pid).1.subcgroups) ∧
    (∀ s : ScopeState,
      (delegate_resource_control s).1 = s ∧
      (describeScope s).1 = s ∧
      (stop_unit s).1 = s) := by
  refine ⟨?_, ?_, ?_, ?_⟩
  · intro name slice parts st ev h
    unfold mkDelegatedScope at h
    split at h
    · simp at h
    · split at h
      · simp at h
      · split at h
        · simp at h
        · simp at h
        · split at h
          · simp at h
          · rw [Prod.ext_iff] at h
            obtain ⟨h1, -⟩ := h
            rw [Except.ok.injEq] at h1
            rw [← h1]
  · intro s n
    simp only [create_subcgroup_eq]
    exact ⟨Finset.subset_insert _ _, Finset.mem_insert_self _ _⟩
  · intro s n pid
    by_cases hn : n ∈ s.subcgroups
    · refine ⟨?_, ?_⟩ <;> simp [migrate_pid, hn]
    · simp [migrate_pid, hn, create_subcgroup_eq, Finset.subset_insert]
  · intro s
    refine ⟨?_, rfl, rfl⟩
    by_cases h : s.cgmode = CgMode.UNIFIED <;> simp [delegate_resource_control, h]

/-- Witness for C9: the freshly constructed unified demo scope has an empty
set, and creating `manager` registers it. -/
theorem C9_subcgroups_monotone_witness :
    unifiedScope.subcgroups = ∅ ∧
    "manager" ∈ (create_subcgroup unifiedScope "manager").2.1.subcgroups :=
  ⟨C9_subcgroups_monotone.1 "workload.scope" "workload.slice" unifiedParts unifiedScope
      [Event.startTransientUnit "workload.scope" "workload.slice"] rfl,
   (C9_subcgroups_monotone.2.1 unifiedScope "manager").2⟩

/-- C10: migrating a PID into an already-known sub-group leaves the state
(and so the known-sub-group set) unchanged, issues only control-file
writes — the directory set of any filesystem is untouched — and those
writes are exactly the decimal PID into the sub-group's `cgroup.procs`
(unified mode), plus the four per-controller `cgroup.procs` files in the
fixed order cpu, memory, blkio, pids in legacy mode. -/
theorem C10_migrate_pid_known_frame (s : ScopeState) (sub : String) (pid : Int)
    (h : sub ∈ s.subcgroups) :
    migrate_pid s sub pid = (s, migrateWrites s sub pid) ∧
    (∀ op ∈ migrateWrites s sub pid, op.isWrite = true) ∧
    (∀ fs : FS, (applyOps fs (migrate_pid s sub pid).2).dirs = fs.dirs) ∧
    (s.cgmode = CgMode.UNIFIED →
      migrateWrites s sub pid =
        [FsOp.writeFile (s.cgpath ++ "/" ++ sub ++ "/cgroup.procs") (toString pid)]) ∧
    (s.cgmode = CgMode.LEGACY →
      migrateWrites s sub pid =
        [FsOp.writeFile (s.cgpath ++ "/" ++ sub ++ "/cgroup.procs") (toString pid),
         FsOp.writeFile (controllerPath s "cpu" sub ++ "/cgroup.procs") (toString pid),
         FsOp.writeFile (controllerPath s "memory" sub ++ "/cgroup.procs") (toString pid),
         FsOp.writeFile (controllerPath s "blkio" sub ++ "/cgroup.procs") (toString pid),
         FsOp.writeFile (controllerPath s "pids" sub ++ "/cgroup.procs") (toString pid)]) := by
  have h1 : migrate_pid s sub pid = (s, migrateWrites s sub pid) := by
    simp [migrate_pid, h]
  refine ⟨h1, migrateWrites_all_writes _ _ _, ?_, ?_, ?_⟩
  · intro fs
    rw [h1]
    exact dirs_applyOps_of_writes _ fs (migrateWrites_all_writes _ _ _)
  · intro hm
    simp [migrateWrites, hm]
  · intro hm
    simp [migrateWrites, hm, controllers]

/-- Witness for C10 at the legacy demo scope with `manager` registered. -/
theorem C10_migrate_pid_known_frame_witness :
    migrate_pid legacyScopeM "manager" 4242 =
      (legacyScopeM, migrateWrites legacyScopeM "manager" 4242) :=
  (C10_migrate_pid_known_frame legacyScopeM "manager" 4242 (by decide)).1

end DelegationDemo
